import Mathlib

/-!
Shallow embedding of the Mintbase creative-marketplace Solana programs.

Sources embedded here:
- `src/src/solana-client/src/lib.rs` (creative sessions, performance
  recording, emotional trajectory, creator reputation);
- `src/src/solana-programs/programs/emotional-metadata/src/lib.rs`
  (pattern classification and cross-NFT analysis);
- `src/src/solana-programs/programs/biometric-nft/src/lib.rs`
  (NFT transfer with an emotional-stability precondition).

Modelling conventions: `f32` values are modelled as exact rationals
wherever the code stays inside +, -, *, /; values produced through
`sqrt` are modelled as real numbers. Where IEEE-754 non-finite
behaviour is itself the subject of a claim (NaN quality scores,
0.0/0.0 averages), a dedicated float model `F` with an explicit NaN
element and Rust `f32::min` semantics is used. Machine integers that
only count upward (`u32`, `u64` counters) are modelled as `Nat`;
timestamps (`i64`) as `Int`; `Pubkey` and 32-byte identifiers as `Nat`.
-/

/-- Float model with an explicit NaN: `F.fin x` is a finite value
(modelled exactly, without rounding), `F.nan` is IEEE NaN. Infinities
are not modelled separately; operations that would produce them in
IEEE-754 (overflow, nonzero/0) do not occur on the verified code paths
and are mapped to `F.nan` like every other non-finite result. -/
inductive F where
  | fin : ℝ → F
  | nan : F

namespace F

/-- IEEE addition: finite + finite is exact, NaN propagates. -/
noncomputable def add : F → F → F
  | fin a, fin b => fin (a + b)
  | _, _ => nan

/-- IEEE subtraction. -/
noncomputable def sub : F → F → F
  | fin a, fin b => fin (a - b)
  | _, _ => nan

/-- IEEE multiplication. -/
noncomputable def mul : F → F → F
  | fin a, fin b => fin (a * b)
  | _, _ => nan

/-- IEEE division; `0.0/0.0` (the only zero-denominator division
reached by the embedded code) is NaN. -/
noncomputable def div : F → F → F
  | fin a, fin b => if b = 0 then nan else fin (a / b)
  | _, _ => nan

/-- Rust `f32::min`: if one argument is NaN, the other argument is
returned. -/
noncomputable def fmin : F → F → F
  | fin a, fin b => fin (min a b)
  | nan, x => x
  | x, nan => x

/-- IEEE square root: NaN on negative input, NaN propagates. -/
noncomputable def sqrt : F → F
  | fin a => if a < 0 then nan else fin (Real.sqrt a)
  | nan => nan

/-- IEEE absolute value. -/
noncomputable def abs : F → F
  | fin a => fin |a|
  | nan => nan

/-- IEEE strict greater-than comparison; any comparison with NaN is
false. -/
noncomputable def gt : F → F → Bool
  | fin a, fin b => decide (b < a)
  | _, _ => false

/-- Embedding of `iter().sum::<f32>()`: left fold of addition starting
from `0.0`. -/
noncomputable def sum (l : List F) : F := l.foldl add (fin 0)

end F

/-- Emotional vector from `solana-client/src/lib.rs` (valence, arousal,
dominance, confidence as `f32`, timestamp as `i64`), polymorphic in the
scalar model so the exact-rational and the NaN-aware embeddings share
one shape. -/
structure EmotionalVector (α : Type) where
  valence : α
  arousal : α
  dominance : α
  confidence : α
  timestamp : ℤ
deriving DecidableEq

/-- Rust `#[derive(Default)]` for `EmotionalVector`: all fields zero. -/
instance (α : Type) [Zero α] : Inhabited (EmotionalVector α) :=
  ⟨⟨0, 0, 0, 0, 0⟩⟩

/-- Cross-chain bridge information (inert data carried by a session). -/
structure CrossChainInfo where
  target_chain : String
  target_contract : ℕ
  bridge_status : ℕ
  bridge_timestamp : ℤ
  emotional_hash : ℕ
deriving DecidableEq, Inhabited

/-- Model of the 32-byte content hash produced by
`hash_emotional_state`: the source hashes the canonical little-endian
byte encoding of (valence, arousal, dominance, confidence, timestamp)
with SHA-256 (an external library call); the digest is modelled as the
encoded field tuple itself, which is deterministic and injective,
matching the properties the specification demands of the hash. -/
abbrev StateDigest := ℚ × ℚ × ℚ × ℚ × ℤ

/-- Creative session account (`CreativeSession` in the source). -/
structure CreativeSession where
  creator : ℕ
  session_id : ℕ
  start_time : ℤ
  emotional_state : EmotionalVector ℚ
  shader_params : List ℚ
  interaction_count : ℕ
  compressed_state : StateDigest
  cross_chain_info : CrossChainInfo
  reputation_score : ℚ
  emotional_complexity : ℝ
  creativity_index : ℚ
  community_engagement : ℕ
  last_updated : ℤ

/-- Performance data account (`PerformanceData` in the source). -/
structure PerformanceData where
  session_id : ℕ
  timestamp : ℤ
  emotional_vector : EmotionalVector ℚ
  shader_parameters : List ℚ
  interaction_intensity : ℚ
  emotional_impact : ℚ
  creativity_boost : ℝ
  quality_score : ℚ

/-- Creator reputation account (`CreatorReputation` in the source). -/
structure CreatorReputation where
  creator : ℕ
  reputation_score : ℚ
  total_interactions : ℕ
  last_updated : ℤ
  emotional_consistency : ℚ
  creativity_score : ℚ
  community_rank : ℕ
  total_sessions : ℕ

/-- Emotional trajectory account (`EmotionalTrajectory` in the
source). -/
structure EmotionalTrajectory where
  session_id : ℕ
  emotional_history : List (EmotionalVector ℚ)
  predicted_next : EmotionalVector ℚ
  trajectory_complexity : ℝ
  update_count : ℕ

/-- Embedding of `hash_emotional_state` (lines 281-291): digest of the
canonical encoding of the five fields, in source field order. -/
def hash_emotional_state (emotional_state : EmotionalVector ℚ) : StateDigest :=
  (emotional_state.valence, emotional_state.arousal, emotional_state.dominance,
    emotional_state.confidence, emotional_state.timestamp)

/-- Embedding of `calculate_emotional_impact` (lines 293-298). -/
def calculate_emotional_impact (current previous : EmotionalVector ℚ) : ℚ :=
  let valence_diff := |current.valence - previous.valence|
  let arousal_diff := |current.arousal - previous.arousal|
  let dominance_diff := |current.dominance - previous.dominance|
  (valence_diff + arousal_diff + dominance_diff) / 3

/-- Embedding of `calculate_creativity_boost` (lines 300-309): the
population standard deviation of the shader parameters (0 when fewer
than two parameters) is mixed with the quality score and capped at 1. -/
noncomputable def calculate_creativity_boost (shader_params : List ℚ) (quality_score : ℚ) : ℝ :=
  let param_variance : ℝ :=
    if 1 < shader_params.length then
      let mean : ℚ := shader_params.sum / shader_params.length
      let variance : ℚ := (shader_params.map (fun x => (x - mean) ^ 2)).sum / shader_params.length
      Real.sqrt (variance : ℝ)
    else 0
  min (param_variance * 0.5 + (quality_score : ℝ) * 0.5) 1

/-- Embedding of `predict_next_emotional_state` (lines 311-327). -/
def predict_next_emotional_state (history : List (EmotionalVector ℚ)) : EmotionalVector ℚ :=
  if history.length < 2 then default
  else
    let last := history.getD (history.length - 1) default
    let second_last := history.getD (history.length - 2) default
    { valence := last.valence + (last.valence - second_last.valence)
      arousal := last.arousal + (last.arousal - second_last.arousal)
      dominance := last.dominance + (last.dominance - second_last.dominance)
      confidence := 0.7
      timestamp := last.timestamp + 60 }

/-- One step of the complexity loop body (lines 339-342): Euclidean
distance between two consecutive emotional vectors in
(valence, arousal, dominance) space. -/
noncomputable def trajectory_step_change (current previous : EmotionalVector ℚ) : ℝ :=
  Real.sqrt (((current.valence - previous.valence) ^ 2
    + (current.arousal - previous.arousal) ^ 2
    + (current.dominance - previous.dominance) ^ 2 : ℚ) : ℝ)

/-- Embedding of the accumulation loop `for i in 1..history.len()` of
`calculate_trajectory_complexity` (lines 334-343). -/
noncomputable def total_trajectory_change (history : List (EmotionalVector ℚ)) : ℝ :=
  ∑ i in Finset.Ico 1 history.length,
    trajectory_step_change (history.getD i default) (history.getD (i - 1) default)

/-- Embedding of `calculate_trajectory_complexity` (lines 329-346). -/
noncomputable def calculate_trajectory_complexity (history : List (EmotionalVector ℚ)) : ℝ :=
  if history.length < 2 then 0.5
  else min (total_trajectory_change history / ((history.length - 1 : ℕ) : ℝ)) 1

/-- Embedding of `update_reputation` (lines 348-351). -/
def update_reputation (current performance : ℚ) : ℚ :=
  let learning_rate : ℚ := 0.1
  current + learning_rate * (performance - current)

/-- Embedding of `calculate_emotional_consistency` (lines 353-356). -/
def calculate_emotional_consistency (reputation : ℚ) : ℚ :=
  reputation * 0.8 + 0.2

/-- Embedding of the history mutation inside
`update_emotional_trajectory` (lines 168-174): append the vector, then
remove the element at index 0 if the length exceeds 100. Stated
polymorphically; the source instantiates it at `Vec<EmotionalVector>`. -/
def push_history {α : Type} (history : List α) (v : α) : List α :=
  let h2 := history ++ [v]
  if 100 < h2.length then h2.eraseIdx 0 else h2

/-- Embedding of `initialize_session` (lines 93-120): `init`-allocated
account fields that the handler does not assign keep their Rust
`Default` value. -/
def init_session (creator : ℕ) (session_id : ℕ)
    (initial_emotional_state : EmotionalVector ℚ) (shader_params : List ℚ)
    (now : ℤ) : CreativeSession :=
  { creator := creator
    session_id := session_id
    start_time := now
    emotional_state := initial_emotional_state
    shader_params := shader_params
    interaction_count := 0
    compressed_state := hash_emotional_state initial_emotional_state
    cross_chain_info := default
    reputation_score := 0.5
    emotional_complexity := 0.5
    creativity_index := 0.5
    community_engagement := 0
    last_updated := now }

/-- Embedding of `record_performance` (lines 123-158): returns the
updated session together with the freshly created performance account. -/
noncomputable def record_performance (session : CreativeSession)
    (emotional_vector : EmotionalVector ℚ) (shader_parameters : List ℚ)
    (interaction_intensity quality_score : ℚ) (now : ℤ) :
    CreativeSession × PerformanceData :=
  let performance : PerformanceData :=
    { session_id := session.session_id
      timestamp := now
      emotional_vector := emotional_vector
      shader_parameters := shader_parameters
      interaction_intensity := interaction_intensity
      emotional_impact := calculate_emotional_impact emotional_vector session.emotional_state
      creativity_boost := calculate_creativity_boost shader_parameters quality_score
      quality_score := quality_score }
  let session2 : CreativeSession :=
    { session with
      emotional_state := emotional_vector
      shader_params := shader_parameters
      interaction_count := session.interaction_count + 1
      last_updated := now
      reputation_score := update_reputation session.reputation_score quality_score }
  (session2, performance)

/-- Embedding of `update_emotional_trajectory` (lines 161-190): pushes
the prior session state into the history, recomputes prediction and
complexity, then installs the new emotional state on the session. -/
noncomputable def update_emotional_trajectory (session : CreativeSession)
    (trajectory : EmotionalTrajectory) (new_emotional_state : EmotionalVector ℚ) :
    CreativeSession × EmotionalTrajectory :=
  let history2 := push_history trajectory.emotional_history session.emotional_state
  let trajectory2 : EmotionalTrajectory :=
    { trajectory with
      emotional_history := history2
      predicted_next := predict_next_emotional_state history2
      trajectory_complexity := calculate_trajectory_complexity history2
      update_count := trajectory.update_count + 1 }
  let session2 : CreativeSession :=
    { session with
      emotional_state := new_emotional_state
      emotional_complexity := trajectory2.trajectory_complexity }
  (session2, trajectory2)

/-- Embedding of `compress_emotional_state` (lines 193-206); the
`compression_target` argument is unused by the source handler. -/
def compress_emotional_state (session : CreativeSession)
    (compression_target : ℕ) : CreativeSession :=
  { session with compressed_state := hash_emotional_state session.emotional_state }

/-- Embedding of `update_creator_reputation` (lines 209-231): EMA of
the reputation, counter updates, then the running-mean creativity
update that reads `total_sessions` after its increment. -/
def update_creator_reputation (reputation : CreatorReputation)
    (session : CreativeSession) (session_performance : ℚ) (now : ℤ) :
    CreatorReputation :=
  let weight : ℚ := 0.1
  let new_score := reputation.reputation_score * (1 - weight) + session_performance * weight
  let new_sessions := reputation.total_sessions + 1
  { reputation with
    reputation_score := new_score
    total_interactions := reputation.total_interactions + session.interaction_count
    last_updated := now
    total_sessions := new_sessions
    emotional_consistency := calculate_emotional_consistency new_score
    creativity_score :=
      (reputation.creativity_score * ((new_sessions - 1 : ℕ) : ℚ) + session.creativity_index)
        / (new_sessions : ℚ) }

/-- Pattern categories from
`solana-programs/programs/emotional-metadata/src/lib.rs`. -/
inductive PatternType where
  | StablePositive
  | StableNegative
  | UnstableMixed
  | NeutralStable
  | HighEnergy
  | LowEnergy
deriving DecidableEq

/-- Error codes of the emotional-metadata program. -/
inductive MetadataErrorCode where
  | Unauthorized
  | InvalidEmotionVector
  | InvalidBiometricSignature
  | LowAIConfidence
  | NFTMintNotFound
  | MetadataNotFound
deriving DecidableEq

/-- Result record of `analyze_emotional_patterns`
(`EmotionalAnalysis` in the source), over the NaN-aware float model. -/
structure EmotionalAnalysis where
  average_valence : F
  average_arousal : F
  average_dominance : F
  overall_confidence : F
  emotional_stability : F
  pattern_type : PatternType

/-- Embedding of `calculate_stability` (metadata program, lines
226-231): one minus four times the population variance of the three
scalars, capped at 1. -/
noncomputable def calculate_stability (valence arousal dominance : F) : F :=
  let mean := F.div (F.add (F.add valence arousal) dominance) (F.fin 3)
  let variance :=
    F.div
      (F.add
        (F.add (F.mul (F.sub valence mean) (F.sub valence mean))
          (F.mul (F.sub arousal mean) (F.sub arousal mean)))
        (F.mul (F.sub dominance mean) (F.sub dominance mean)))
      (F.fin 3)
  F.sub (F.fin 1) (F.fmin (F.mul variance (F.fin 4)) (F.fin 1))

/-- Embedding of `classify_pattern` (metadata program, lines 233-241):
match on the triple of strict comparisons against 0.5. -/
noncomputable def classify_pattern (valence arousal dominance : F) : PatternType :=
  match (F.gt valence (F.fin 0.5), F.gt arousal (F.fin 0.5), F.gt dominance (F.fin 0.5)) with
  | (true, true, true) => PatternType.StablePositive
  | (false, true, true) => PatternType.StableNegative
  | (true, false, false) => PatternType.LowEnergy
  | (false, true, false) => PatternType.HighEnergy
  | _ => PatternType.UnstableMixed

/-- Embedding of `analyze_emotional_patterns` (metadata program, lines
95-123): the loop adds the placeholder constants once per mint, the
totals are divided by the element count with no guard against an empty
list, and the result is always `Ok`. -/
noncomputable def analyze_emotional_patterns (nft_mints : List ℕ) :
    Except MetadataErrorCode EmotionalAnalysis :=
  let total_valence := List.foldl (fun acc _ => F.add acc (F.fin 0.5)) (F.fin 0) nft_mints
  let total_arousal := List.foldl (fun acc _ => F.add acc (F.fin 0.3)) (F.fin 0) nft_mints
  let total_dominance := List.foldl (fun acc _ => F.add acc (F.fin 0.7)) (F.fin 0) nft_mints
  let confidence_sum := List.foldl (fun acc _ => F.add acc (F.fin 0.8)) (F.fin 0) nft_mints
  let count := F.fin nft_mints.length
  Except.ok
    { average_valence := F.div total_valence count
      average_arousal := F.div total_arousal count
      average_dominance := F.div total_dominance count
      overall_confidence := F.div confidence_sum count
      emotional_stability :=
        calculate_stability (F.div total_valence count) (F.div total_arousal count)
          (F.div total_dominance count)
      pattern_type :=
        classify_pattern (F.div total_valence count) (F.div total_arousal count)
          (F.div total_dominance count) }

/-- Error codes of the biometric-nft program. -/
inductive NftErrorCode where
  | Unauthorized
  | EmotionalStateUnstable
  | InvalidBiometricData
  | CollectionFull
deriving DecidableEq

/-- Emotion data attached to a biometric NFT (`EmotionData` in
`biometric-nft/src/lib.rs`). -/
structure EmotionData where
  valence : ℚ
  arousal : ℚ
  dominance : ℚ
  confidence : ℚ
  timestamp : ℤ
deriving DecidableEq

/-- Biometric NFT account (`BiometricNFT` in the source). -/
structure BiometricNFT where
  collection : ℕ
  owner : ℕ
  biometric_hash : ℕ
  emotion_data : EmotionData
  uri : String
  minted_at : ℤ
  last_updated : ℤ
  generation : ℕ
deriving DecidableEq

/-- Embedding of `transfer_nft` (biometric-nft program, lines 89-110):
the signer must match the recorded owner, then the arousal must be
strictly below 0.7, and only then are the owner and timestamp fields
updated. -/
def transfer_nft (nft : BiometricNFT) (current_owner : ℕ) (new_owner : ℕ)
    (now : ℤ) : Except NftErrorCode BiometricNFT :=
  if ¬ (nft.owner = current_owner) then Except.error NftErrorCode.Unauthorized
  else if ¬ (nft.emotion_data.arousal < 0.7) then Except.error NftErrorCode.EmotionalStateUnstable
  else Except.ok { nft with owner := new_owner, last_updated := now }

/-- On-chain semantics of a failed instruction: an error aborts the
transaction and the stored account is left exactly as it was, while a
success stores the returned record. -/
def transfer_nft_apply (nft : BiometricNFT) (current_owner : ℕ) (new_owner : ℕ)
    (now : ℤ) : BiometricNFT :=
  match transfer_nft nft current_owner new_owner now with
  | Except.ok n => n
  | Except.error _ => nft

/-- NaN-aware session record: the same shape as `CreativeSession` with
every `f32` field in the float model `F` (the opaque 32-byte hash is
carried as a `Nat`). Used to settle the claims about how the source
treats NaN inputs, which the exact-rational embedding cannot express. -/
structure CreativeSessionF where
  creator : ℕ
  session_id : ℕ
  start_time : ℤ
  emotional_state : EmotionalVector F
  shader_params : List F
  interaction_count : ℕ
  compressed_state : ℕ
  cross_chain_info : CrossChainInfo
  reputation_score : F
  emotional_complexity : F
  creativity_index : F
  community_engagement : ℕ
  last_updated : ℤ

/-- NaN-aware performance record, mirroring `PerformanceData`. -/
structure PerformanceDataF where
  session_id : ℕ
  timestamp : ℤ
  emotional_vector : EmotionalVector F
  shader_parameters : List F
  interaction_intensity : F
  emotional_impact : F
  creativity_boost : F
  quality_score : F

/-- NaN-aware embedding of `calculate_emotional_impact` (lines
293-298). -/
noncomputable def calculate_emotional_impact_ieee
    (current previous : EmotionalVector F) : F :=
  F.div
    (F.add
      (F.add (F.abs (F.sub current.valence previous.valence))
        (F.abs (F.sub current.arousal previous.arousal)))
      (F.abs (F.sub current.dominance previous.dominance)))
    (F.fin 3)

/-- NaN-aware embedding of `calculate_creativity_boost` (lines
300-309), including the Rust `f32::min` treatment of NaN. -/
noncomputable def calculate_creativity_boost_ieee (shader_params : List F)
    (quality_score : F) : F :=
  let param_variance :=
    if 1 < shader_params.length then
      let mean := F.div (F.sum shader_params) (F.fin shader_params.length)
      let variance :=
        F.div (F.sum (shader_params.map (fun x => F.mul (F.sub x mean) (F.sub x mean))))
          (F.fin shader_params.length)
      F.sqrt variance
    else F.fin 0
  F.fmin (F.add (F.mul param_variance (F.fin 0.5)) (F.mul quality_score (F.fin 0.5)))
    (F.fin 1)

/-- NaN-aware embedding of `update_reputation` (lines 348-351). -/
noncomputable def update_reputation_ieee (current performance : F) : F :=
  F.add current (F.mul (F.fin 0.1) (F.sub performance current))

/-- NaN-aware embedding of `record_performance` (lines 123-158). The
source handler contains no input validation and no failure branch: it
unconditionally computes the scores and returns the updated records. -/
noncomputable def record_performance_ieee (session : CreativeSessionF)
    (emotional_vector : EmotionalVector F) (shader_parameters : List F)
    (interaction_intensity quality_score : F) (now : ℤ) :
    CreativeSessionF × PerformanceDataF :=
  let performance : PerformanceDataF :=
    { session_id := session.session_id
      timestamp := now
      emotional_vector := emotional_vector
      shader_parameters := shader_parameters
      interaction_intensity := interaction_intensity
      emotional_impact := calculate_emotional_impact_ieee emotional_vector session.emotional_state
      creativity_boost := calculate_creativity_boost_ieee shader_parameters quality_score
      quality_score := quality_score }
  let session2 : CreativeSessionF :=
    { session with
      emotional_state := emotional_vector
      shader_params := shader_parameters
      interaction_count := session.interaction_count + 1
      last_updated := now
      reputation_score := update_reputation_ieee session.reputation_score quality_score }
  (session2, performance)

lemma eraseIdx_zero_eq_tail {α : Type} (l : List α) : l.eraseIdx 0 = l.tail := by
  cases l <;> rfl

lemma eraseIdx_zero_append {α : Type} (xs : List α) (a : α) (hxs : xs ≠ []) :
    (xs ++ [a]).eraseIdx 0 = xs.tail ++ [a] := by
  cases xs with
  | nil => exact absurd rfl hxs
  | cons x t => rfl

lemma push_history_of_small {α : Type} (xs : List α) (a : α) (hxs : xs.length < 100) :
    push_history xs a = xs ++ [a] := by
  simp only [push_history]
  rw [if_neg (by simp only [List.length_append, List.length_singleton]; omega)]

lemma push_history_of_full {α : Type} (xs : List α) (a : α) (hxs : xs.length = 100) :
    push_history xs a = xs.tail ++ [a] := by
  have hne : xs ≠ [] := by
    intro hc
    rw [hc] at hxs
    simp at hxs
  simp only [push_history]
  rw [if_pos (by simp only [List.length_append, List.length_singleton]; omega),
    eraseIdx_zero_append _ _ hne]

lemma push_history_length_le {α : Type} (h : List α) (v : α) (hle : h.length ≤ 100) :
    (push_history h v).length ≤ 100 := by
  rcases lt_or_eq_of_le hle with hlt | heq
  · rw [push_history_of_small _ _ hlt]
    simp only [List.length_append, List.length_singleton]
    omega
  · rw [push_history_of_full _ _ heq]
    simp only [List.length_append, List.length_singleton, List.length_tail]
    omega

lemma foldl_push_history {α : Type} (l : List α) (h0 : List α) (hle : h0.length ≤ 100) :
    List.foldl push_history h0 l = (h0 ++ l).drop ((h0 ++ l).length - 100) := by
  induction l using List.reverseRecOn with
  | nil =>
    have hz : (h0 ++ []).length - 100 = 0 := by
      simp only [List.append_nil]
      omega
    rw [hz]
    simp
  | append_singleton l a ih =>
    have hstep : List.foldl push_history h0 (l ++ [a]) =
        push_history (List.foldl push_history h0 l) a := by
      simp [List.foldl_append]
    rw [hstep, ih, ← List.append_assoc]
    by_cases hcase : (h0 ++ l).length < 100
    · have hD : (h0 ++ l).length - 100 = 0 := by omega
      have hD2 : ((h0 ++ l) ++ [a]).length - 100 = 0 := by
        simp only [List.length_append, List.length_singleton] at hcase ⊢
        omega
      rw [hD, List.drop_zero, hD2, List.drop_zero, push_history_of_small _ _ hcase]
    · have hxs : ((h0 ++ l).drop ((h0 ++ l).length - 100)).length = 100 := by
        rw [List.length_drop]
        omega
      rw [push_history_of_full _ a hxs, List.tail_drop,
        ← List.drop_append_of_le_length
          (show (h0 ++ l).length - 100 + 1 ≤ (h0 ++ l).length by omega)]
      congr 1
      simp only [List.length_append, List.length_singleton] at hcase ⊢
      omega

/-- C1. The history mutation of `update_emotional_trajectory` keeps
every history that respects the 100-entry capacity within capacity;
over capacity it removes exactly the element at index 0; any sequence
of updates starting from the empty history stays within capacity; after
101 sequential pushes the result is precisely the last 100 pushed
elements in insertion order, and the first pushed element (when the
pushed elements are distinct) is gone. -/
theorem update_trajectory_history_spec {α : Type} :
    (∀ (h : List α) (v : α), h.length ≤ 100 → (push_history h v).length ≤ 100) ∧
    (∀ (h : List α) (v : α), 100 < (h ++ [v]).length → push_history h v = (h ++ [v]).tail) ∧
    (∀ l : List α, (List.foldl push_history ([] : List α) l).length ≤ 100) ∧
    (∀ l : List α, l.length = 101 → List.foldl push_history ([] : List α) l = l.tail) ∧
    (∀ (x : α) (rest : List α), rest.length = 100 → (x :: rest).Nodup →
      List.foldl push_history ([] : List α) (x :: rest) = rest ∧
      x ∉ List.foldl push_history ([] : List α) (x :: rest)) := by
  have hfold : ∀ l : List α, List.foldl push_history ([] : List α) l =
      l.drop (l.length - 100) := by
    intro l
    have := foldl_push_history l [] (by simp)
    simpa using this
  refine ⟨push_history_length_le, ?_, ?_, ?_, ?_⟩
  · intro h v hover
    simp only [push_history]
    rw [if_pos hover]
    exact eraseIdx_zero_eq_tail (h ++ [v])
  · intro l
    rw [hfold, List.length_drop]
    omega
  · intro l hlen
    rw [hfold, hlen]
    simp [List.drop_one]
  · intro x rest hlen hnodup
    have h101 : (x :: rest).length = 101 := by simp [hlen]
    have heq : List.foldl push_history ([] : List α) (x :: rest) = rest := by
      rw [hfold, h101]
      simp [List.drop_one]
    refine ⟨heq, ?_⟩
    rw [heq]
    simp only [List.nodup_cons] at hnodup
    exact hnodup.1

/-- Witness for C1 at concrete inputs: a push on a two-element history
stays within capacity, and 101 pushes of the distinct naturals
0..100 starting from the empty history leave exactly 1..100. -/
theorem update_trajectory_history_spec_witness :
    (push_history [(0 : ℕ), 1] 2).length ≤ 100 ∧
    List.foldl push_history ([] : List ℕ) (List.range 101) = (List.range 101).tail := by
  refine ⟨update_trajectory_history_spec.1 [0, 1] 2 (by simp), ?_⟩
  exact update_trajectory_history_spec.2.2.2.1 (List.range 101) (by simp)

lemma getD_append_two_snd {α : Type} [Inhabited α] (l : List α) (a b : α) :
    (l ++ [a, b]).getD (l.length + 1) default = b := by
  rw [List.getD_append_right l [a, b] default (l.length + 1) (by omega)]
  simp

lemma getD_append_two_fst {α : Type} [Inhabited α] (l : List α) (a b : α) :
    (l ++ [a, b]).getD l.length default = a := by
  rw [List.getD_append_right l [a, b] default l.length (le_refl _)]
  simp

/-- C2. `predict_next_emotional_state` returns the all-zero default
vector (confidence 0) on histories shorter than 2; on longer histories
it extrapolates the last first difference componentwise with fixed
confidence 0.7 and timestamp last + 60; in particular the documented
two-point scenario yields (0.4, 0.4, 0.4) with confidence 0.7. -/
theorem predict_next_spec :
    (∀ h : List (EmotionalVector ℚ), h.length < 2 →
      predict_next_emotional_state h = ⟨0, 0, 0, 0, 0⟩) ∧
    (∀ (l : List (EmotionalVector ℚ)) (a b : EmotionalVector ℚ),
      predict_next_emotional_state (l ++ [a, b]) =
        ⟨b.valence + (b.valence - a.valence), b.arousal + (b.arousal - a.arousal),
          b.dominance + (b.dominance - a.dominance), 0.7, b.timestamp + 60⟩) ∧
    (∀ (c0 : ℚ) (t0 : ℤ) (c1 : ℚ) (t1 : ℤ),
      predict_next_emotional_state [⟨0, 0, 0, c0, t0⟩, ⟨0.2, 0.2, 0.2, c1, t1⟩] =
        ⟨0.4, 0.4, 0.4, 0.7, t1 + 60⟩) := by
  have hgen : ∀ (l : List (EmotionalVector ℚ)) (a b : EmotionalVector ℚ),
      predict_next_emotional_state (l ++ [a, b]) =
        ⟨b.valence + (b.valence - a.valence), b.arousal + (b.arousal - a.arousal),
          b.dominance + (b.dominance - a.dominance), 0.7, b.timestamp + 60⟩ := by
    intro l a b
    have hlen : (l ++ [a, b]).length = l.length + 2 := by simp
    have h1 : (l ++ [a, b]).getD ((l ++ [a, b]).length - 1) default = b := by
      rw [hlen, show l.length + 2 - 1 = l.length + 1 by omega]
      exact getD_append_two_snd l a b
    have h2 : (l ++ [a, b]).getD ((l ++ [a, b]).length - 2) default = a := by
      rw [hlen, show l.length + 2 - 2 = l.length by omega]
      exact getD_append_two_fst l a b
    simp only [predict_next_emotional_state]
    rw [if_neg (by rw [hlen]; omega), h1, h2]
  refine ⟨?_, hgen, ?_⟩
  · intro h hlt
    simp only [predict_next_emotional_state]
    rw [if_pos hlt]
    rfl
  · intro c0 t0 c1 t1
    have := hgen [] ⟨0, 0, 0, c0, t0⟩ ⟨0.2, 0.2, 0.2, c1, t1⟩
    simp only [List.nil_append] at this
    rw [this]
    simp only [EmotionalVector.mk.injEq]
    norm_num

/-- Witness for C2: the empty history maps to the zero vector, and the
documented two-point scenario produces the extrapolated vector. -/
theorem predict_next_spec_witness :
    predict_next_emotional_state ([] : List (EmotionalVector ℚ)) = ⟨0, 0, 0, 0, 0⟩ ∧
    predict_next_emotional_state [(⟨0, 0, 0, 1, 1000⟩ : EmotionalVector ℚ),
      ⟨0.2, 0.2, 0.2, 1, 1060⟩] = ⟨0.4, 0.4, 0.4, 0.7, 1120⟩ :=
  ⟨predict_next_spec.1 [] (by simp), by
    have := predict_next_spec.2.2 1 1000 1 1060
    simpa using this⟩

/-- Sum of the Euclidean step distances over consecutive pairs, stated
the way the specification words it: one term per consecutive pair. -/
noncomputable def consecutive_distance_sum (history : List (EmotionalVector ℚ)) : ℝ :=
  ((history.zip history.tail).map (fun p => trajectory_step_change p.2 p.1)).sum

lemma total_change_nil : total_trajectory_change [] = 0 := by
  simp only [total_trajectory_change, List.length_nil]
  rw [Finset.Ico_eq_empty (by omega)]
  simp

lemma total_change_single (x : EmotionalVector ℚ) :
    total_trajectory_change [x] = 0 := by
  simp only [total_trajectory_change, List.length_singleton]
  simp

lemma total_change_cons (x y : EmotionalVector ℚ) (t : List (EmotionalVector ℚ)) :
    total_trajectory_change (x :: y :: t) =
      trajectory_step_change y x + total_trajectory_change (y :: t) := by
  unfold total_trajectory_change
  simp only [List.length_cons]
  rw [Finset.sum_eq_sum_Ico_succ_bot (by omega : 1 < t.length + 1 + 1)]
  have hfirst : trajectory_step_change ((x :: y :: t).getD 1 default)
      ((x :: y :: t).getD (1 - 1) default) = trajectory_step_change y x := rfl
  rw [hfirst]
  congr 1
  rw [Finset.sum_Ico_eq_sum_range, Finset.sum_Ico_eq_sum_range]
  rw [show t.length + 1 + 1 - 2 = t.length + 1 - 1 by omega]
  apply Finset.sum_congr rfl
  intro i _
  simp only [show 2 + i = i + 1 + 1 by omega, show 1 + i = i + 1 by omega,
    show i + 1 + 1 - 1 = i + 1 by omega, show i + 1 - 1 = i by omega,
    List.getD_cons_succ]

lemma pair_sum_nil : consecutive_distance_sum [] = 0 := by
  simp [consecutive_distance_sum]

lemma pair_sum_single (x : EmotionalVector ℚ) : consecutive_distance_sum [x] = 0 := by
  simp [consecutive_distance_sum]

lemma pair_sum_cons (x y : EmotionalVector ℚ) (t : List (EmotionalVector ℚ)) :
    consecutive_distance_sum (x :: y :: t) =
      trajectory_step_change y x + consecutive_distance_sum (y :: t) := by
  simp [consecutive_distance_sum]

lemma total_change_eq_pair_sum :
    ∀ h : List (EmotionalVector ℚ), total_trajectory_change h = consecutive_distance_sum h
  | [] => by rw [total_change_nil, pair_sum_nil]
  | [x] => by rw [total_change_single, pair_sum_single]
  | x :: y :: t => by
    rw [total_change_cons, pair_sum_cons, total_change_eq_pair_sum (y :: t)]

/-- C3. `calculate_trajectory_complexity` is the 0.5 sentinel on
histories shorter than 2, and otherwise the mean Euclidean step
distance over consecutive pairs capped at 1. -/
theorem trajectory_complexity_spec :
    (∀ h : List (EmotionalVector ℚ), h.length < 2 →
      calculate_trajectory_complexity h = 0.5) ∧
    (∀ h : List (EmotionalVector ℚ), 2 ≤ h.length →
      calculate_trajectory_complexity h =
        min 1 (consecutive_distance_sum h / ((h.length - 1 : ℕ) : ℝ))) := by
  constructor
  · intro h hlt
    simp only [calculate_trajectory_complexity]
    rw [if_pos hlt]
  · intro h hge
    simp only [calculate_trajectory_complexity]
    rw [if_neg (by omega), total_change_eq_pair_sum, min_comm]

/-- Witness for C3: the empty history gets the 0.5 sentinel, and a
two-entry history is scored by the capped mean step distance. -/
theorem trajectory_complexity_spec_witness :
    calculate_trajectory_complexity ([] : List (EmotionalVector ℚ)) = 0.5 ∧
    calculate_trajectory_complexity [(⟨0, 0, 0, 1, 0⟩ : EmotionalVector ℚ), ⟨0, 0, 0, 1, 60⟩] =
      min 1 (consecutive_distance_sum [(⟨0, 0, 0, 1, 0⟩ : EmotionalVector ℚ), ⟨0, 0, 0, 1, 60⟩] /
        (([(⟨0, 0, 0, 1, 0⟩ : EmotionalVector ℚ), ⟨0, 0, 0, 1, 60⟩].length - 1 : ℕ) : ℝ)) :=
  ⟨trajectory_complexity_spec.1 [] (by simp),
    trajectory_complexity_spec.2 _ (by simp)⟩

lemma classify_pattern_eval (v a d : ℝ) :
    classify_pattern (F.fin v) (F.fin a) (F.fin d) =
      match (decide ((0.5 : ℝ) < v), decide ((0.5 : ℝ) < a), decide ((0.5 : ℝ) < d)) with
      | (true, true, true) => PatternType.StablePositive
      | (false, true, true) => PatternType.StableNegative
      | (true, false, false) => PatternType.LowEnergy
      | (false, true, false) => PatternType.HighEnergy
      | _ => PatternType.UnstableMixed := rfl

/-- C4 counterexample. The averaged triple (0.6, 0.4, 0.4) matches the
source arm `(true, false, false)` and is classified `LowEnergy`, not
`UnstableMixed` as the claim states. -/
theorem classify_pattern_point_counterexample :
    classify_pattern (F.fin 0.6) (F.fin 0.4) (F.fin 0.4) = PatternType.LowEnergy ∧
    PatternType.LowEnergy ≠ PatternType.UnstableMixed := by
  constructor
  · rw [classify_pattern_eval, decide_eq_true (by norm_num : (0.5 : ℝ) < 0.6),
      decide_eq_false (by norm_num : ¬ (0.5 : ℝ) < 0.4)]
  · decide

/-- C4 (amended). Each component of the averaged triple is thresholded
strictly at 0.5; (0.6, 0.6, 0.6) classifies as `StablePositive`,
(0.6, 0.4, 0.4) as `LowEnergy`, and of the eight boolean combinations
exactly four map to a named category while the other four collapse to
`UnstableMixed`. -/
theorem classify_pattern_spec :
    classify_pattern (F.fin 0.6) (F.fin 0.6) (F.fin 0.6) = PatternType.StablePositive ∧
    classify_pattern (F.fin 0.6) (F.fin 0.4) (F.fin 0.4) = PatternType.LowEnergy ∧
    (∀ v a d : ℝ,
      (0.5 < v → 0.5 < a → 0.5 < d →
        classify_pattern (F.fin v) (F.fin a) (F.fin d) = PatternType.StablePositive) ∧
      (v ≤ 0.5 → 0.5 < a → 0.5 < d →
        classify_pattern (F.fin v) (F.fin a) (F.fin d) = PatternType.StableNegative) ∧
      (0.5 < v → a ≤ 0.5 → d ≤ 0.5 →
        classify_pattern (F.fin v) (F.fin a) (F.fin d) = PatternType.LowEnergy) ∧
      (v ≤ 0.5 → 0.5 < a → d ≤ 0.5 →
        classify_pattern (F.fin v) (F.fin a) (F.fin d) = PatternType.HighEnergy) ∧
      (0.5 < v → 0.5 < a → d ≤ 0.5 →
        classify_pattern (F.fin v) (F.fin a) (F.fin d) = PatternType.UnstableMixed) ∧
      (0.5 < v → a ≤ 0.5 → 0.5 < d →
        classify_pattern (F.fin v) (F.fin a) (F.fin d) = PatternType.UnstableMixed) ∧
      (v ≤ 0.5 → a ≤ 0.5 → 0.5 < d →
        classify_pattern (F.fin v) (F.fin a) (F.fin d) = PatternType.UnstableMixed) ∧
      (v ≤ 0.5 → a ≤ 0.5 → d ≤ 0.5 →
        classify_pattern (F.fin v) (F.fin a) (F.fin d) = PatternType.UnstableMixed)) := by
  refine ⟨?_, ?_, ?_⟩
  · rw [classify_pattern_eval, decide_eq_true (by norm_num : (0.5 : ℝ) < 0.6)]
  · rw [classify_pattern_eval, decide_eq_true (by norm_num : (0.5 : ℝ) < 0.6),
      decide_eq_false (by norm_num : ¬ (0.5 : ℝ) < 0.4)]
  · intro v a d
    refine ⟨?_, ?_, ?_, ?_, ?_, ?_, ?_, ?_⟩ <;> intro h1 h2 h3
    · rw [classify_pattern_eval, decide_eq_true h1, decide_eq_true h2, decide_eq_true h3]
    · rw [classify_pattern_eval, decide_eq_false (not_lt.mpr h1), decide_eq_true h2,
        decide_eq_true h3]
    · rw [classify_pattern_eval, decide_eq_true h1, decide_eq_false (not_lt.mpr h2),
        decide_eq_false (not_lt.mpr h3)]
    · rw [classify_pattern_eval, decide_eq_false (not_lt.mpr h1), decide_eq_true h2,
        decide_eq_false (not_lt.mpr h3)]
    · rw [classify_pattern_eval, decide_eq_true h1, decide_eq_true h2,
        decide_eq_false (not_lt.mpr h3)]
    · rw [classify_pattern_eval, decide_eq_true h1, decide_eq_false (not_lt.mpr h2),
        decide_eq_true h3]
    · rw [classify_pattern_eval, decide_eq_false (not_lt.mpr h1),
        decide_eq_false (not_lt.mpr h2), decide_eq_true h3]
    · rw [classify_pattern_eval, decide_eq_false (not_lt.mpr h1),
        decide_eq_false (not_lt.mpr h2), decide_eq_false (not_lt.mpr h3)]

/-- Witness for C4 at a fresh concrete triple: (1, 0, 0) lands in the
`LowEnergy` arm. -/
theorem classify_pattern_spec_witness :
    classify_pattern (F.fin 1) (F.fin 0) (F.fin 0) = PatternType.LowEnergy :=
  (classify_pattern_spec.2.2 1 0 0).2.2.1 (by norm_num) (by norm_num) (by norm_num)

/-- C5. `record_performance` applies the EMA reputation rule with
smoothing 0.1, increments the interaction count by one, and scores the
emotional impact as the mean absolute componentwise difference; the
documented scenario from a fresh session yields count 1, reputation
0.54 and impact 0.4. -/
theorem record_performance_spec :
    (∀ (s : CreativeSession) (ev : EmotionalVector ℚ) (params : List ℚ)
      (intensity q : ℚ) (now : ℤ),
      (record_performance s ev params intensity q now).1.reputation_score =
        s.reputation_score + 0.1 * (q - s.reputation_score) ∧
      (record_performance s ev params intensity q now).1.interaction_count =
        s.interaction_count + 1 ∧
      (record_performance s ev params intensity q now).2.emotional_impact =
        (|ev.valence - s.emotional_state.valence| + |ev.arousal - s.emotional_state.arousal| +
          |ev.dominance - s.emotional_state.dominance|) / 3) ∧
    (∀ (creator sid : ℕ) (params0 : List ℚ) (t0 : ℤ) (conf : ℚ) (ts : ℤ)
      (intensity : ℚ) (now : ℤ),
      (record_performance (init_session creator sid ⟨0, 0, 0, 1, 1000⟩ params0 t0)
          ⟨0.4, 0.6, 0.2, conf, ts⟩ [1, 2, 3] intensity 0.9 now).1.interaction_count = 1 ∧
      (record_performance (init_session creator sid ⟨0, 0, 0, 1, 1000⟩ params0 t0)
          ⟨0.4, 0.6, 0.2, conf, ts⟩ [1, 2, 3] intensity 0.9 now).1.reputation_score = 0.54 ∧
      (record_performance (init_session creator sid ⟨0, 0, 0, 1, 1000⟩ params0 t0)
          ⟨0.4, 0.6, 0.2, conf, ts⟩ [1, 2, 3] intensity 0.9 now).2.emotional_impact = 0.4) := by
  constructor
  · intro s ev params intensity q now
    refine ⟨rfl, rfl, rfl⟩
  · intro creator sid params0 t0 conf ts intensity now
    refine ⟨rfl, ?_, ?_⟩
    · show update_reputation (0.5 : ℚ) 0.9 = 0.54
      norm_num [update_reputation]
    · show calculate_emotional_impact ⟨0.4, 0.6, 0.2, conf, ts⟩ ⟨0, 0, 0, 1, 1000⟩ = 0.4
      simp only [calculate_emotional_impact]
      norm_num [abs_of_nonneg]

/-- The periodic reputation aggregation (`update_creator_reputation`)
applied to a whole list of per-session inputs, left to right. -/
def apply_sessions (reputation : CreatorReputation)
    (inputs : List (CreativeSession × ℚ × ℤ)) : CreatorReputation :=
  inputs.foldl (fun rep p => update_creator_reputation rep p.1 p.2.1 p.2.2) reputation

lemma update_creator_total_sessions (rep : CreatorReputation) (s : CreativeSession)
    (p : ℚ) (now : ℤ) :
    (update_creator_reputation rep s p now).total_sessions = rep.total_sessions + 1 := rfl

lemma update_creator_creativity (rep : CreatorReputation) (s : CreativeSession)
    (p : ℚ) (now : ℤ) :
    (update_creator_reputation rep s p now).creativity_score =
      (rep.creativity_score * (rep.total_sessions : ℚ) + s.creativity_index) /
        ((rep.total_sessions : ℚ) + 1) := by
  simp only [update_creator_reputation]
  rw [show rep.total_sessions + 1 - 1 = rep.total_sessions from rfl]
  push_cast
  ring_nf

lemma apply_sessions_creativity :
    ∀ (inputs : List (CreativeSession × ℚ × ℤ)) (rep : CreatorReputation),
      inputs ≠ [] →
      (apply_sessions rep inputs).creativity_score =
        (rep.creativity_score * (rep.total_sessions : ℚ) +
          (inputs.map (fun p => p.1.creativity_index)).sum) /
          ((rep.total_sessions : ℚ) + inputs.length) := by
  intro inputs
  induction inputs with
  | nil => exact fun rep h => absurd rfl h
  | cons x rest ih =>
    intro rep _
    by_cases hrest : rest = []
    · subst hrest
      show (update_creator_reputation rep x.1 x.2.1 x.2.2).creativity_score = _
      rw [update_creator_creativity]
      simp only [List.map_cons, List.map_nil, List.sum_cons, List.sum_nil,
        List.length_cons, List.length_nil]
      norm_num
    · have hstep : apply_sessions rep (x :: rest) =
          apply_sessions (update_creator_reputation rep x.1 x.2.1 x.2.2) rest := rfl
      rw [hstep, ih _ hrest, update_creator_creativity, update_creator_total_sessions]
      simp only [List.map_cons, List.sum_cons, List.length_cons]
      have hne : (rep.total_sessions : ℚ) + 1 ≠ 0 := by positivity
      push_cast
      field_simp
      ring

/-- C6. The creativity update in `update_creator_reputation` computes
(old * (n - 1) + session_creativity_index) / n with n the
already-incremented session total, and consequently any sequence of
sessions applied from `total_sessions = 0` ends with the exact
arithmetic mean of the applied creativity indices, the starting value
carrying weight zero. -/
theorem update_creator_reputation_running_mean :
    (∀ (rep : CreatorReputation) (s : CreativeSession) (p : ℚ) (now : ℤ),
      (update_creator_reputation rep s p now).total_sessions = rep.total_sessions + 1 ∧
      (update_creator_reputation rep s p now).creativity_score =
        (rep.creativity_score * (((rep.total_sessions + 1 : ℕ) : ℚ) - 1) + s.creativity_index) /
          ((rep.total_sessions + 1 : ℕ) : ℚ)) ∧
    (∀ (rep : CreatorReputation) (inputs : List (CreativeSession × ℚ × ℤ)),
      rep.total_sessions = 0 → inputs ≠ [] →
      (apply_sessions rep inputs).creativity_score =
        (inputs.map (fun p => p.1.creativity_index)).sum / (inputs.length : ℚ)) := by
  constructor
  · intro rep s p now
    refine ⟨rfl, ?_⟩
    rw [update_creator_creativity]
    push_cast
    ring_nf
  · intro rep inputs h0 hne
    rw [apply_sessions_creativity inputs rep hne, h0]
    norm_num

/-- Concrete creator reputation used as a witness starting point: zero
sessions recorded, deliberately skewed starting creativity score 7. -/
def sample_reputation : CreatorReputation :=
  { creator := 0
    reputation_score := 0.5
    total_interactions := 0
    last_updated := 0
    emotional_consistency := 0.6
    creativity_score := 7
    community_rank := 0
    total_sessions := 0 }

/-- Concrete session with creativity index 0.5 (the initial default). -/
def sample_session_a : CreativeSession := init_session 1 1 ⟨0, 0, 0, 1, 0⟩ [] 0

/-- Concrete session with creativity index 0.9. -/
def sample_session_b : CreativeSession :=
  { init_session 1 2 ⟨0, 0, 0, 1, 0⟩ [] 0 with creativity_index := 0.9 }

/-- Witness for C6: two sessions applied from a fresh reputation ending
in the arithmetic mean of their creativity indices, regardless of the
skewed start. -/
theorem update_creator_reputation_running_mean_witness :
    (apply_sessions sample_reputation
        [(sample_session_a, 0.9, 5), (sample_session_b, 0.8, 6)]).creativity_score =
      (([(sample_session_a, (0.9 : ℚ), (5 : ℤ)), (sample_session_b, 0.8, 6)].map
        (fun p => p.1.creativity_index)).sum) /
        (([(sample_session_a, (0.9 : ℚ), (5 : ℤ)), (sample_session_b, 0.8, 6)].length : ℚ)) :=
  update_creator_reputation_running_mean.2 sample_reputation _ rfl (by simp)

lemma F_add_nan_right : ∀ x : F, F.add x F.nan = F.nan := by
  intro x
  cases x <;> rfl

lemma F_sub_nan_left : ∀ x : F, F.sub F.nan x = F.nan := by
  intro x
  cases x <;> rfl

lemma F_mul_nan_right : ∀ x : F, F.mul x F.nan = F.nan := by
  intro x
  cases x <;> rfl

/-- C7 counterexample. `record_performance` accepts a NaN quality score
outright: there is no rejection of any kind, the NaN reaches the
reputation EMA (leaving the stored reputation NaN), and through Rust
`f32::min` the creativity boost silently becomes the finite value 1. -/
theorem record_performance_nan_counterexample :
    (record_performance_ieee
        { creator := 0, session_id := 0, start_time := 0,
          emotional_state := ⟨F.fin 0, F.fin 0, F.fin 0, F.fin 1, 1000⟩,
          shader_params := [], interaction_count := 0, compressed_state := 0,
          cross_chain_info := default, reputation_score := F.fin 0.5,
          emotional_complexity := F.fin 0.5, creativity_index := F.fin 0.5,
          community_engagement := 0, last_updated := 1000 }
        ⟨F.fin 0.4, F.fin 0.6, F.fin 0.2, F.fin 1, 1100⟩ [F.fin 1] (F.fin 1)
        F.nan 1100).1.reputation_score = F.nan ∧
    (record_performance_ieee
        { creator := 0, session_id := 0, start_time := 0,
          emotional_state := ⟨F.fin 0, F.fin 0, F.fin 0, F.fin 1, 1000⟩,
          shader_params := [], interaction_count := 0, compressed_state := 0,
          cross_chain_info := default, reputation_score := F.fin 0.5,
          emotional_complexity := F.fin 0.5, creativity_index := F.fin 0.5,
          community_engagement := 0, last_updated := 1000 }
        ⟨F.fin 0.4, F.fin 0.6, F.fin 0.2, F.fin 1, 1100⟩ [F.fin 1] (F.fin 1)
        F.nan 1100).2.creativity_boost = F.fin 1 := by
  constructor
  · rfl
  · rfl

/-- C7 (amended). The source performs no numeric input validation: for
every session and every parameter list, `record_performance` with a NaN
quality completes (there is no error path at all), stores a NaN
reputation score, records the NaN quality verbatim, and reports a
creativity boost of exactly 1 because Rust `f32::min` discards the NaN
operand. -/
theorem record_performance_nan_spec :
    ∀ (s : CreativeSessionF) (ev : EmotionalVector F) (params : List F)
      (intensity : F) (now : ℤ),
      (record_performance_ieee s ev params intensity F.nan now).1.reputation_score = F.nan ∧
      (record_performance_ieee s ev params intensity F.nan now).2.creativity_boost = F.fin 1 ∧
      (record_performance_ieee s ev params intensity F.nan now).2.quality_score = F.nan := by
  intro s ev params intensity now
  refine ⟨?_, ?_, rfl⟩
  · show update_reputation_ieee s.reputation_score F.nan = F.nan
    rw [update_reputation_ieee, F_sub_nan_left, F_mul_nan_right, F_add_nan_right]
  · show calculate_creativity_boost_ieee params F.nan = F.fin 1
    rw [calculate_creativity_boost_ieee]
    show F.fmin (F.add _ (F.mul F.nan (F.fin 0.5))) (F.fin 1) = F.fin 1
    rw [show F.mul F.nan (F.fin 0.5) = F.nan from rfl, F_add_nan_right]
    rfl

/-- C8. `transfer_nft` changes the owner exactly when the signer is the
recorded owner and the arousal is strictly below 0.7; an authorized
transfer attempt at arousal at least 0.7 fails with
`EmotionalStateUnstable`; and any failure leaves the stored record
entirely unchanged. -/
theorem transfer_nft_spec :
    ∀ (nft : BiometricNFT) (signer newo : ℕ) (now : ℤ),
      ((∃ n', transfer_nft nft signer newo now = Except.ok n' ∧ n'.owner = newo) ↔
        (nft.owner = signer ∧ nft.emotion_data.arousal < 0.7)) ∧
      (nft.owner = signer → 0.7 ≤ nft.emotion_data.arousal →
        transfer_nft nft signer newo now = Except.error NftErrorCode.EmotionalStateUnstable) ∧
      (∀ e, transfer_nft nft signer newo now = Except.error e →
        transfer_nft_apply nft signer newo now = nft) := by
  intro nft signer newo now
  refine ⟨⟨?_, ?_⟩, ?_, ?_⟩
  · rintro ⟨n', hok, _⟩
    by_cases howner : nft.owner = signer
    · by_cases harousal : nft.emotion_data.arousal < 0.7
      · exact ⟨howner, harousal⟩
      · rw [transfer_nft, if_neg (by simpa using howner), if_pos (by simpa using harousal)]
          at hok
        exact absurd hok (by simp)
    · rw [transfer_nft, if_pos (by simpa using howner)] at hok
      exact absurd hok (by simp)
  · rintro ⟨howner, harousal⟩
    refine ⟨{ nft with owner := newo, last_updated := now }, ?_, rfl⟩
    rw [transfer_nft, if_neg (by simpa using howner), if_neg (by simpa using harousal)]
  · intro howner harousal
    rw [transfer_nft, if_neg (by simpa using howner),
      if_pos (by simpa using not_lt.mpr harousal)]
  · intro e herr
    rw [transfer_nft_apply, herr]

/-- Witness for C8: a stable NFT transfers to its new owner, while the
same NFT at arousal 0.9 is rejected as unstable and the applied state
is unchanged. -/
theorem transfer_nft_spec_witness :
    ((∃ n', transfer_nft
        { collection := 0, owner := 7, biometric_hash := 3,
          emotion_data := ⟨0.5, 0.2, 0.5, 1, 100⟩, uri := "u",
          minted_at := 0, last_updated := 0, generation := 1 } 7 9 50 = Except.ok n' ∧
        n'.owner = 9)) ∧
    transfer_nft
        { collection := 0, owner := 7, biometric_hash := 3,
          emotion_data := ⟨0.5, 0.9, 0.5, 1, 100⟩, uri := "u",
          minted_at := 0, last_updated := 0, generation := 1 } 7 9 50 =
      Except.error NftErrorCode.EmotionalStateUnstable := by
  constructor
  · exact (transfer_nft_spec _ 7 9 50).1.mpr ⟨rfl, by norm_num⟩
  · exact (transfer_nft_spec _ 7 9 50).2.1 rfl (by norm_num)

/-- C9 counterexample. One `record_performance` call after session
initialization replaces the current emotional vector without touching
`compressed_state`, so the stored digest no longer matches the digest
of the current vector. -/
theorem compressed_state_goes_stale :
    ((record_performance (init_session 1 1 ⟨0, 0, 0, 1, 1000⟩ [] 1000)
        ⟨0.4, 0.6, 0.2, 1, 1100⟩ [] 0 0.9 1100).1).compressed_state ≠
      hash_emotional_state
        ((record_performance (init_session 1 1 ⟨0, 0, 0, 1, 1000⟩ [] 1000)
          ⟨0.4, 0.6, 0.2, 1, 1100⟩ [] 0 0.9 1100).1).emotional_state := by
  show hash_emotional_state ⟨0, 0, 0, 1, 1000⟩ ≠ hash_emotional_state ⟨0.4, 0.6, 0.2, 1, 1100⟩
  intro hcontra
  have h1 := congrArg Prod.fst hcontra
  norm_num [hash_emotional_state] at h1

/-- C9 (amended). The digest invariant holds right after
`initialize_session` and right after `compress_emotional_state`, but
`record_performance` and `update_emotional_trajectory` replace the
current emotional vector while carrying the old `compressed_state`
over unchanged, so the digest is not a pure function of the current
vector in all reachable states. -/
theorem compressed_state_hash_spec :
    (∀ (creator sid : ℕ) (iv : EmotionalVector ℚ) (params : List ℚ) (now : ℤ),
      (init_session creator sid iv params now).compressed_state =
        hash_emotional_state (init_session creator sid iv params now).emotional_state) ∧
    (∀ (s : CreativeSession) (target : ℕ),
      (compress_emotional_state s target).compressed_state =
        hash_emotional_state (compress_emotional_state s target).emotional_state) ∧
    (∀ (s : CreativeSession) (ev : EmotionalVector ℚ) (params : List ℚ)
      (intensity q : ℚ) (now : ℤ),
      (record_performance s ev params intensity q now).1.compressed_state =
        s.compressed_state) ∧
    (∀ (s : CreativeSession) (tr : EmotionalTrajectory) (nv : EmotionalVector ℚ),
      (update_emotional_trajectory s tr nv).1.compressed_state = s.compressed_state) :=
  ⟨fun _ _ _ _ _ => rfl, fun _ _ => rfl, fun _ _ _ _ _ _ => rfl, fun _ _ _ => rfl⟩

/-- C10. `analyze_emotional_patterns` on an empty mint list returns
`Ok`, not an error, and every averaged field is the unguarded division
0.0/0.0, i.e. NaN (with the downstream stability score degenerating to
0 and the pattern collapsing to `UnstableMixed`). -/
theorem analyze_empty_returns_ok_nan :
    analyze_emotional_patterns [] =
      Except.ok
        { average_valence := F.nan, average_arousal := F.nan, average_dominance := F.nan,
          overall_confidence := F.nan, emotional_stability := F.fin 0,
          pattern_type := PatternType.UnstableMixed } := by
  simp only [analyze_emotional_patterns, List.foldl_nil, List.length_nil, Nat.cast_zero,
    calculate_stability, classify_pattern, F.div, F.add, F.mul, F.fmin, F.sub, F.gt]
  norm_num
